import Mathlib

/-!
Verification of the AMIGODIGITAL backend façade (src/BACKEND/app.py).

The file shallowly embeds the Flask application: each route handler of
app.py becomes a Lean function over an explicit model of the HTTP request
and of the Supabase client.  The remote Supabase service itself is not part
of the repository; its behaviour, as exercised by the query chains of the
façade (select/order/eq/single/insert/execute and auth.get_user), is
modelled by executable Lean functions on an explicit store, following the
description in the spec of the backing service (rows are returned as the query
orders and filters them; inserted rows echo the forwarded payload plus
server-side defaults, with votes defaulting to 0).
-/

namespace AmigoDigital

/-- JSON values as they appear in request bodies and forwarded payloads. -/
inductive JVal where
  | s (v : String)
  | n (v : Int)
  | null
deriving DecidableEq, Repr

/-- A JSON object (a Python dict), as an association list. -/
abbrev JObj := List (String × JVal)

/-- Key lookup in a JSON object: Python `data[k]` / `data.get(k)`. -/
def jget (o : JObj) (k : String) : Option JVal :=
  (o.find? (fun p => p.1 = k)).map (·.2)

/-- Python membership test `k in data` on a dict. -/
def jhas (o : JObj) (k : String) : Bool :=
  o.any (fun p => p.1 = k)

/-- Coercion the backing service applies when a JSON value is compared to or
stored in a text key column (query params arrive as strings). -/
def jvalToParam : JVal → String
  | .s v => v
  | .n v => toString v
  | .null => "null"

/-- A row of the `categories` table (id, name — read-only from the façade). -/
structure Category where
  id : Int
  name : String
deriving DecidableEq, Repr

/-- A row of the `tutorials` table. -/
structure Tutorial where
  id : String
  title : JVal
  description : JVal
  category_id : String
  content : JVal
deriving DecidableEq, Repr

/-- A row of the `suggestions` table.  `user_id` is the identity column that
the data model in the spec lists for suggestions. -/
structure Suggestion where
  id : Int
  content : JVal
  votes : Int
  user_id : Option String
deriving DecidableEq, Repr

/-- The backing tables held by the remote service, plus a counter from which
server-side generated ids are drawn. -/
structure Store where
  categories : List Category
  tutorials : List Tutorial
  suggestions : List Suggestion
  nextId : Int
deriving Repr

/-- The Supabase client handle: the store it reaches and the identity map
`auth.get_user` resolves bearer tokens through (`none` = the service
rejects the token, i.e. `get_user` raises). -/
structure Client where
  store : Store
  authUsers : String → Option String

/-- An HTTP request as Flask presents it to a handler: method, path, query
string (`request.args`), headers, and the parsed JSON body (`request.json`;
`none` models a body that parses to JSON null). -/
structure Request where
  method : String
  path : String
  args : List (String × String)
  headers : List (String × String)
  jsonBody : Option JObj

/-- `request.args.get k` -/
def Request.getArg (req : Request) (k : String) : Option String :=
  (req.args.find? (fun p => p.1 = k)).map (·.2)

/-- `request.headers.get k` -/
def Request.getHeader (req : Request) (k : String) : Option String :=
  (req.headers.find? (fun p => p.1 = k)).map (·.2)

/-- Response bodies the façade produces via `jsonify` (or plain text). -/
inductive Body where
  | text (v : String)
  | err (msg : String)
  | categories (l : List Category)
  | tutorials (l : List Tutorial)
  | tutorial (t : Tutorial)
  | suggestions (l : List Suggestion)
deriving DecidableEq, Repr

/-- The observable outcome of a request: an explicit `(body, status)`
response, or an exception escaping the handler, which Flask surfaces as an
HTTP 500 fault. -/
inductive Outcome where
  | resp (status : Nat) (body : Body)
  | fault (msg : String)
deriving DecidableEq, Repr

/-- HTTP status of an outcome.  An unhandled exception becomes a 500
response at the WSGI layer. -/
def Outcome.status : Outcome → Nat
  | .resp s _ => s
  | .fault _ => 500

/-- Python truthiness of `request.json` as tested by `if not data`:
falsy when the body was JSON null (`None`) or an empty dict. -/
def dataFalsy : Option JObj → Bool
  | none => true
  | some o => o.isEmpty

/-- `supabase.table(categories).select(*).order(id).execute().data`:
all rows, ordered ascending by id (the default order direction of the service). -/
def queryCategories (st : Store) : List Category :=
  st.categories.mergeSort (fun a b => a.id ≤ b.id)

/-- `supabase.table(suggestions).select(*).order(votes, desc=True)
.execute().data`: all rows, ordered descending by votes. -/
def querySuggestions (st : Store) : List Suggestion :=
  st.suggestions.mergeSort (fun a b => b.votes ≤ a.votes)

/-- `.eq(category_id, cid)` filter on the tutorials table. -/
def queryTutorialsByCategory (st : Store) (cid : String) : List Tutorial :=
  st.tutorials.filter (fun t => t.category_id = cid)

/-- `.eq(id, tid).single()`: succeeds with the row when the filter matches
exactly one row, otherwise `single()` raises (modelled as `none`). -/
def querySingleTutorial (st : Store) (tid : String) : Option Tutorial :=
  match st.tutorials.filter (fun t => t.id = tid) with
  | [t] => some t
  | _ => none

/-- `supabase.table(suggestions).insert(payload).execute()`.  The service
stores the forwarded payload fields, generates the id, defaults `votes` to 0
and `user_id` to any user_id key found in the payload (the façade under
verification never sends one).  Returns the echoed row and the new store. -/
def insertSuggestion (st : Store) (payload : JObj) : Suggestion × Store :=
  let row : Suggestion :=
    { id := st.nextId
      content := (jget payload "content").getD .null
      votes := match jget payload "votes" with
               | some (.n v) => v
               | _ => 0
      user_id := (jget payload "user_id").map jvalToParam }
  (row, { st with suggestions := st.suggestions ++ [row], nextId := st.nextId + 1 })

/-- `supabase.table(tutorials).insert(payload).execute()`: stores the
forwarded fields under a server-generated id. -/
def insertTutorial (st : Store) (payload : JObj) : Tutorial × Store :=
  let row : Tutorial :=
    { id := toString st.nextId
      title := (jget payload "title").getD .null
      description := (jget payload "description").getD .null
      category_id := jvalToParam ((jget payload "category_id").getD .null)
      content := (jget payload "content").getD .null }
  (row, { st with tutorials := st.tutorials ++ [row], nextId := st.nextId + 1 })

/-- The `token_required` decorator (app.py lines 33–51).  Checks the
`Authorization` header for a `Bearer ` prefix, asks the service to resolve
the token, and only then invokes the wrapped handler with the resolved
user.  When the process-scope `supabase` is `None`, the attribute access
inside the `try` raises and is caught by the same `except Exception`, so
the request still gets the invalid-token 401. -/
def token_required (sb : Option Client) (req : Request)
    (f : Client → String → Outcome × Option Client) : Outcome × Option Client :=
  match req.getHeader "Authorization" with
  | none => (.resp 401 (.err "Token de autenticação ausente ou mal formatado."), sb)
  | some h =>
    if ¬ List.isPrefixOf "Bearer ".data h.data then
      (.resp 401 (.err "Token de autenticação ausente ou mal formatado."), sb)
    else
      let jwt := String.mk ((h.data.splitOn ' ').getD 1 [])
      match sb with
      | none => (.resp 401 (.err "Token inválido ou expirado."), sb)
      | some c =>
        match c.authUsers jwt with
        | none => (.resp 401 (.err "Token inválido ou expirado."), sb)
        | some u => f c u

/-- `index` (app.py lines 56–59). -/
def index : Outcome :=
  .resp 200 (.text "A API do Amigo Digital está funcionando!")

/-- `get_categories` (app.py lines 61–65).  With `supabase = None` the
attribute access `supabase.table` raises an uncaught `AttributeError`. -/
def get_categories (sb : Option Client) : Outcome :=
  match sb with
  | none => .fault "AttributeError: NoneType object has no attribute table"
  | some c => .resp 200 (.categories (queryCategories c.store))

/-- `get_tutorials_by_category` (app.py lines 67–75).  The param check
`if not category_id` fires on an absent param and on the empty string. -/
def get_tutorials_by_category (sb : Option Client) (req : Request) : Outcome :=
  match req.getArg "category_id" with
  | none => .resp 400 (.err "\x27category_id\x27 é um parâmetro obrigatório")
  | some cid =>
    if cid = "" then .resp 400 (.err "\x27category_id\x27 é um parâmetro obrigatório")
    else
      match sb with
      | none => .fault "AttributeError: NoneType object has no attribute table"
      | some c => .resp 200 (.tutorials (queryTutorialsByCategory c.store cid))

/-- `get_tutorial_details` (app.py lines 77–91).  Every failure inside the
`try` — `single()` raising on zero or several matches, the explicit raise
on empty data, or the attribute access on a `None` client — is caught and
turned into the 404 naming the requested id. -/
def get_tutorial_details (sb : Option Client) (req : Request) : Outcome :=
  match req.getArg "id" with
  | none => .resp 400 (.err "\x27id\x27 é um parâmetro obrigatório")
  | some tid =>
    if tid = "" then .resp 400 (.err "\x27id\x27 é um parâmetro obrigatório")
    else
      match sb with
      | none => .resp 404 (.err ("Tutorial com ID " ++ tid ++ " não foi encontrado."))
      | some c =>
        match querySingleTutorial c.store tid with
        | some t => .resp 200 (.tutorial t)
        | none => .resp 404 (.err ("Tutorial com ID " ++ tid ++ " não foi encontrado."))

/-- `get_suggestions` (app.py lines 93–97). -/
def get_suggestions (sb : Option Client) : Outcome :=
  match sb with
  | none => .fault "AttributeError: NoneType object has no attribute table"
  | some c => .resp 200 (.suggestions (querySuggestions c.store))

/-- Body of `add_suggestion` (app.py lines 102–113), reached only through
`token_required`.  the falsy-or-missing-content check on the body → 400; otherwise
only the `content` field is forwarded to the insert, and the echoed
row-set is returned with 201. -/
def add_suggestion (c : Client) (_u : String) (req : Request) : Outcome × Option Client :=
  if dataFalsy req.jsonBody ∨ ¬ jhas (req.jsonBody.getD []) "content" then
    (.resp 400 (.err "O campo \x27content\x27 é obrigatório"), some c)
  else
    let payload : JObj := [("content", (jget (req.jsonBody.getD []) "content").getD .null)]
    let (row, st2) := insertSuggestion c.store payload
    (.resp 201 (.suggestions [row]), some { c with store := st2 })

/-- Body of `create_tutorial` (app.py lines 115–134), reached only through
`token_required`.  `all(field in data for field in required_fields)` is a
membership test on `data`: when the body parsed to JSON null, `data` is
`None` and the test raises `TypeError`, which nothing catches; the 400
branch is reached only for an actual dict missing a field. -/
def create_tutorial (c : Client) (_u : String) (req : Request) : Outcome × Option Client :=
  match req.jsonBody with
  | none => (.fault "TypeError: argument of type NoneType is not iterable", some c)
  | some data =>
    if ["title", "description", "category_id", "content"].all (fun fl => jhas data fl) then
      let payload : JObj :=
        [("title", (jget data "title").getD .null),
         ("description", (jget data "description").getD .null),
         ("category_id", (jget data "category_id").getD .null),
         ("content", (jget data "content").getD .null)]
      let (row, st2) := insertTutorial c.store payload
      (.resp 201 (.tutorials [row]), some { c with store := st2 })
    else
      (.resp 400 (.err "Campos \x27title\x27, \x27description\x27, \x27category_id\x27, e \x27content\x27 são obrigatórios."), some c)

/-- The URL rules Flask has registered (the `@app.route` decorators of app.py). -/
def registeredPaths : List String :=
  ["/", "/api/categories", "/api/tutorials", "/api/tutorial", "/api/suggestions"]

/-- The request router: the Flask dispatch over the registered
(method, path) rules.  A path registered under another method gets
the Flask 405, an unregistered path its 404. -/
def dispatch (sb : Option Client) (req : Request) : Outcome × Option Client :=
  match req.method, req.path with
  | "GET", "/" => (index, sb)
  | "GET", "/api/categories" => (get_categories sb, sb)
  | "GET", "/api/tutorials" => (get_tutorials_by_category sb req, sb)
  | "GET", "/api/tutorial" => (get_tutorial_details sb req, sb)
  | "GET", "/api/suggestions" => (get_suggestions sb, sb)
  | "POST", "/api/suggestions" => token_required sb req (fun c u => add_suggestion c u req)
  | "POST", "/api/tutorials" => token_required sb req (fun c u => create_tutorial c u req)
  | _, p =>
    if p ∈ registeredPaths then (.resp 405 (.err "Method Not Allowed"), sb)
    else (.resp 404 (.err "Not Found"), sb)

/-! Concrete sample data used by witnesses and counterexamples. -/

/-- A token map that resolves the token `tok` to the user `user-1`. -/
def sampleAuth : String → Option String :=
  fun t => if t = "tok" then some "user-1" else none

/-- A store with empty tables. -/
def emptyStore : Store :=
  { categories := [], tutorials := [], suggestions := [], nextId := 1 }

/-- A client over the empty store. -/
def sampleClient : Client :=
  { store := emptyStore, authUsers := sampleAuth }

/-- One tutorial row, in category 2. -/
def sampleTutorial : Tutorial :=
  { id := "5", title := .s "t", description := .s "d", category_id := "2", content := .s "c" }

/-- A client whose store holds exactly `sampleTutorial`. -/
def tutClient : Client :=
  { store := { emptyStore with tutorials := [sampleTutorial] }, authUsers := sampleAuth }

/-- POST /api/help_requests with a message field and a valid token. -/
def helpReq : Request :=
  ⟨"POST", "/api/help_requests", [], [("Authorization", "Bearer tok")],
    some [("message", .s "help")]⟩

/-- POST /api/help_requests whose body lacks the message field. -/
def helpReqNoMsg : Request :=
  ⟨"POST", "/api/help_requests", [], [("Authorization", "Bearer tok")], some []⟩

/-- GET /api/categories. -/
def catReq : Request :=
  ⟨"GET", "/api/categories", [], [], none⟩

/-- POST /api/suggestions with a valid token and a content field. -/
def sugPostReq : Request :=
  ⟨"POST", "/api/suggestions", [], [("Authorization", "Bearer tok")],
    some [("content", .s "x")]⟩

/-- POST /api/suggestions with no Authorization header. -/
def sugPostNoAuth : Request :=
  ⟨"POST", "/api/suggestions", [], [], some [("content", .s "x")]⟩

/-- POST /api/suggestions with a valid token and an empty JSON object body. -/
def sugPostEmptyBody : Request :=
  ⟨"POST", "/api/suggestions", [], [("Authorization", "Bearer tok")], some []⟩

/-- GET /api/tutorial?id=77. -/
def tutDetailReq : Request :=
  ⟨"GET", "/api/tutorial", [("id", "77")], [], none⟩

/-- GET /api/tutorials?category_id=2. -/
def tutListReq : Request :=
  ⟨"GET", "/api/tutorials", [("category_id", "2")], [], none⟩

/-- POST /api/tutorials with a valid token and a body parsing to JSON null. -/
def tutPostNullBody : Request :=
  ⟨"POST", "/api/tutorials", [], [("Authorization", "Bearer tok")], none⟩

/-! Helper lemmas about the authentication gate. -/

/-- A request whose credentials the gate rejects: no Authorization header,
a header without the `Bearer ` prefix, or a token the identity service
does not resolve. -/
def badAuth (sb : Option Client) (req : Request) : Prop :=
  match req.getHeader "Authorization" with
  | none => True
  | some h =>
    List.isPrefixOf "Bearer ".data h.data = false ∨
      ∀ c, sb = some c → c.authUsers (String.mk ((h.data.splitOn ' ').getD 1 [])) = none

lemma token_required_valid (sb : Option Client) (req : Request)
    (f : Client → String → Outcome × Option Client)
    (hd : String) (c : Client) (u : String)
    (hh : req.getHeader "Authorization" = some hd)
    (hpre : List.isPrefixOf "Bearer ".data hd.data = true)
    (hsb : sb = some c)
    (hu : c.authUsers (String.mk ((hd.data.splitOn ' ').getD 1 [])) = some u) :
    token_required sb req f = f c u := by
  subst hsb
  simp only [token_required, hh, hpre, hu, not_true, if_neg, Bool.true_eq_false,
    not_false_iff, if_false]

lemma token_required_badAuth (sb : Option Client) (req : Request)
    (f : Client → String → Outcome × Option Client)
    (hbad : badAuth sb req) :
    (token_required sb req f).1.status = 401 ∧
    ((token_required sb req f).1 =
        .resp 401 (.err "Token de autenticação ausente ou mal formatado.") ∨
      (token_required sb req f).1 = .resp 401 (.err "Token inválido ou expirado.")) ∧
    (token_required sb req f).2 = sb := by
  unfold badAuth at hbad
  cases hh : req.getHeader "Authorization" with
  | none =>
    simp only [token_required, hh]
    simp [Outcome.status]
  | some h =>
    rw [hh] at hbad
    rcases hbad with hbad | hbad
    · simp only [token_required, hh, hbad, Bool.false_eq_true, not_false_iff, if_true]
      simp [Outcome.status]
    · cases sb with
      | none =>
        simp only [token_required, hh]
        split
        · simp [Outcome.status]
        · simp [Outcome.status]
      | some c =>
        have hu := hbad c rfl
        simp only [token_required, hh]
        split
        · simp [Outcome.status]
        · simp only [hu]
          simp [Outcome.status]

/-! Claims about the router and the unavailable-store behaviour. -/

/-- Claim C1 counterexample: the router does not recognize POST
/api/help_requests.  A request to that route with a `message` field in the
body gets 404 and leaves the client state untouched (nothing is created),
and a request whose body lacks `message` gets 404, not the claimed 400. -/
theorem c1_help_requests_route_counterexample :
    dispatch (some sampleClient) helpReq = (.resp 404 (.err "Not Found"), some sampleClient) ∧
    dispatch (some sampleClient) helpReqNoMsg =
      (.resp 404 (.err "Not Found"), some sampleClient) ∧
    (dispatch (some sampleClient) helpReqNoMsg).1.status ≠ 400 := by
  refine ⟨rfl, rfl, ?_⟩
  decide

/-- Claim C1 (amended): the router does not register POST
/api/help_requests at all; every POST request to that path receives the
Flask 404 and the client state is returned unchanged. -/
theorem c1_help_requests_unrecognized (sb : Option Client) (req : Request)
    (hm : req.method = "POST") (hp : req.path = "/api/help_requests") :
    dispatch sb req = (.resp 404 (.err "Not Found"), sb) := by
  obtain ⟨m, p, args, hdrs, body⟩ := req
  simp only [Request.method] at hm
  simp only [Request.path] at hp
  subst hm; subst hp
  rfl

/-- Witness for C1 (amended) at a concrete request. -/
theorem c1_help_requests_unrecognized_witness :
    dispatch (some sampleClient) helpReqNoMsg =
      (.resp 404 (.err "Not Found"), some sampleClient) :=
  c1_help_requests_unrecognized (some sampleClient) helpReqNoMsg rfl rfl

/-- Claim C2 counterexample: with a valid token resolving to `user-1` and
body content `x`, POST /api/suggestions answers 201 and echoes the created
row — but that row carries `user_id = none`, not the caller identity the
token resolved to. -/
theorem c2_suggestion_identity_counterexample :
    (dispatch (some sampleClient) sugPostReq).1 =
      .resp 201 (.suggestions [{ id := 1, content := .s "x", votes := 0, user_id := none }]) ∧
    sampleClient.authUsers "tok" = some "user-1" ∧
    ({ id := 1, content := .s "x", votes := 0, user_id := none } : Suggestion).user_id ≠
      some "user-1" := by
  refine ⟨rfl, rfl, ?_⟩
  simp

/-- Claim C2 (amended): for every POST /api/suggestions request carrying a
valid bearer token and a JSON body with a `content` field, the response is
201 with the created row echoed back; the row holds only the forwarded
content plus server defaults, and its user_id is `none` — the caller
identity resolved from the token is not attached. -/
theorem c2_add_suggestion_created_row (c : Client) (req : Request) (hd u : String) (d : JObj)
    (hm : req.method = "POST") (hp : req.path = "/api/suggestions")
    (hh : req.getHeader "Authorization" = some hd)
    (hpre : List.isPrefixOf "Bearer ".data hd.data = true)
    (hu : c.authUsers (String.mk ((hd.data.splitOn ' ').getD 1 [])) = some u)
    (hb : req.jsonBody = some d)
    (hc : jhas d "content" = true) :
    (dispatch (some c) req).1 =
      .resp 201 (.suggestions
        [{ id := c.store.nextId
           content := (jget d "content").getD .null
           votes := 0
           user_id := none }]) := by
  obtain ⟨m, p, args, hdrs, body⟩ := req
  simp only [Request.method] at hm
  simp only [Request.path] at hp
  subst hm; subst hp
  show (token_required _ _ _).1 = _
  rw [token_required_valid _ _ _ hd c u hh hpre rfl hu]
  have hne : d ≠ [] := by
    intro h0
    rw [h0] at hc
    simp [jhas] at hc
  simp only [Request.jsonBody] at hb
  subst hb
  simp [add_suggestion, dataFalsy, hc, hne, insertSuggestion, jget, List.find?]

/-- Witness for C2 (amended) at a concrete client and request. -/
theorem c2_add_suggestion_created_row_witness :
    (dispatch (some sampleClient) sugPostReq).1 =
      .resp 201 (.suggestions [{ id := 1, content := .s "x", votes := 0, user_id := none }]) :=
  c2_add_suggestion_created_row sampleClient sugPostReq "Bearer tok" "user-1"
    [("content", JVal.s "x")] rfl rfl rfl rfl rfl rfl rfl

/-- Claim C3 counterexample: with the client unavailable (`supabase = None`),
GET /api/categories raises an uncaught AttributeError and the façade
answers 500, not the claimed 503. -/
theorem c3_unavailable_store_counterexample :
    (dispatch none catReq).1 = .fault "AttributeError: NoneType object has no attribute table" ∧
    (dispatch none catReq).1.status = 500 ∧
    (dispatch none catReq).1.status ≠ 503 := by
  refine ⟨rfl, rfl, ?_⟩
  decide

/-- Claim C3 (amended): when the remote-service client could not be
constructed, no route answers 503.  The routes that reach the store with no
local handling (GET /api/categories, GET /api/suggestions) surface the
fault as 500, and GET /api/tutorial converts the failure inside its try
block to 400 or 404. -/
theorem c3_unavailable_store_behavior :
    (∀ req : Request, (dispatch none req).1.status ≠ 503) ∧
    (∀ args hdrs body,
      (dispatch none ⟨"GET", "/api/categories", args, hdrs, body⟩).1.status = 500 ∧
      (dispatch none ⟨"GET", "/api/suggestions", args, hdrs, body⟩).1.status = 500) ∧
    (∀ args hdrs body,
      (dispatch none ⟨"GET", "/api/tutorial", args, hdrs, body⟩).1.status = 400 ∨
      (dispatch none ⟨"GET", "/api/tutorial", args, hdrs, body⟩).1.status = 404) := by
  refine ⟨?_, ?_, ?_⟩
  · intro req
    obtain ⟨m, p, args, hdrs, body⟩ := req
    unfold dispatch
    split
    · simp [index, Outcome.status]
    · simp [get_categories, Outcome.status]
    · simp only [get_tutorials_by_category]
      split
      · simp [Outcome.status]
      · split <;> simp [Outcome.status]
    · simp only [get_tutorial_details]
      split
      · simp [Outcome.status]
      · split <;> simp [Outcome.status]
    · simp [get_suggestions, Outcome.status]
    · simp only [token_required]
      split
      · simp [Outcome.status]
      · split <;> simp [Outcome.status]
    · simp only [token_required]
      split
      · simp [Outcome.status]
      · split <;> simp [Outcome.status]
    · split <;> simp [Outcome.status]
  · intro args hdrs body
    exact ⟨rfl, rfl⟩
  · intro args hdrs body
    have hre : dispatch none ⟨"GET", "/api/tutorial", args, hdrs, body⟩ =
        (get_tutorial_details none ⟨"GET", "/api/tutorial", args, hdrs, body⟩, none) := rfl
    rw [hre]
    unfold get_tutorial_details
    split
    · left; rfl
    · split
      · left; rfl
      · right; rfl

/-- Claim C4: every POST to /api/suggestions or /api/tutorials whose
Authorization header is absent, lacks the Bearer prefix, or carries a token
the identity service does not resolve, is answered 401 by the gate itself:
the response is one of the two gate messages and the client state is
returned untouched, so the wrapped handler never ran. -/
theorem c4_auth_gate_rejects (sb : Option Client) (req : Request)
    (hm : req.method = "POST")
    (hp : req.path = "/api/suggestions" ∨ req.path = "/api/tutorials")
    (hbad : badAuth sb req) :
    (dispatch sb req).1.status = 401 ∧
    ((dispatch sb req).1 =
        .resp 401 (.err "Token de autenticação ausente ou mal formatado.") ∨
      (dispatch sb req).1 = .resp 401 (.err "Token inválido ou expirado.")) ∧
    (dispatch sb req).2 = sb := by
  obtain ⟨m, p, args, hdrs, body⟩ := req
  simp only [Request.method] at hm
  simp only [Request.path] at hp
  subst hm
  rcases hp with hp | hp <;> subst hp <;>
    exact token_required_badAuth sb _ _ hbad

/-- Witness for C4 at a concrete request with no Authorization header. -/
theorem c4_auth_gate_rejects_witness :
    (dispatch (some sampleClient) sugPostNoAuth).1.status = 401 ∧
    (dispatch (some sampleClient) sugPostNoAuth).2 = some sampleClient := by
  have h := c4_auth_gate_rejects (some sampleClient) sugPostNoAuth rfl (Or.inl rfl) trivial
  exact ⟨h.1, h.2.2⟩

/-- Claim C5: a GET /api/tutorial request whose id query parameter names no
tutorial in the store is answered 404, with the error message containing
that id. -/
theorem c5_tutorial_not_found (c : Client) (req : Request) (tid : String)
    (hm : req.method = "GET") (hp : req.path = "/api/tutorial")
    (harg : req.getArg "id" = some tid) (hne : tid ≠ "")
    (habs : ∀ t ∈ c.store.tutorials, t.id ≠ tid) :
    (dispatch (some c) req).1 =
      .resp 404 (.err ("Tutorial com ID " ++ tid ++ " não foi encontrado.")) ∧
    ∃ pre post, ("Tutorial com ID " ++ tid ++ " não foi encontrado.") = pre ++ tid ++ post := by
  obtain ⟨m, p, args, hdrs, body⟩ := req
  simp only [Request.method] at hm
  simp only [Request.path] at hp
  subst hm; subst hp
  refine ⟨?_, "Tutorial com ID ", " não foi encontrado.", rfl⟩
  show (get_tutorial_details (some c) _) = _
  have hfil : c.store.tutorials.filter (fun t => t.id = tid) = [] := by
    rw [List.filter_eq_nil_iff]
    intro t ht
    simpa using habs t ht
  have hq : querySingleTutorial c.store tid = none := by
    unfold querySingleTutorial
    rw [hfil]
  simp only [get_tutorial_details, harg, hne, if_neg, hq]
  simp [hne]

/-- Witness for C5: id 77 against the empty store. -/
theorem c5_tutorial_not_found_witness :
    (dispatch (some sampleClient) tutDetailReq).1 =
      .resp 404 (.err "Tutorial com ID 77 não foi encontrado.") := by
  have h := c5_tutorial_not_found sampleClient tutDetailReq "77" rfl rfl rfl
    (by decide) (by simp [sampleClient, emptyStore])
  exact h.1

/-- Claim C6: GET /api/categories answers 200 with all categories of the
store, sorted ascending by id (a sorted permutation of the table). -/
theorem c6_categories_sorted (c : Client) (args hdrs : List (String × String))
    (body : Option JObj) :
    dispatch (some c) ⟨"GET", "/api/categories", args, hdrs, body⟩ =
      (.resp 200 (.categories (queryCategories c.store)), some c) ∧
    (queryCategories c.store).Pairwise (fun a b => a.id ≤ b.id) ∧
    (queryCategories c.store).Perm c.store.categories := by
  refine ⟨rfl, ?_, List.mergeSort_perm _ _⟩
  have h := @List.sorted_mergeSort Category (fun a b => decide (a.id ≤ b.id))
    (fun a b e h1 h2 => by simp at h1 h2 ⊢; omega)
    (fun a b => by simp [Int.le_total])
    c.store.categories
  simpa [queryCategories] using h

/-- Claim C7: GET /api/suggestions answers 200 with all suggestions of the
store, sorted descending by votes (a sorted permutation of the table). -/
theorem c7_suggestions_sorted (c : Client) (args hdrs : List (String × String))
    (body : Option JObj) :
    dispatch (some c) ⟨"GET", "/api/suggestions", args, hdrs, body⟩ =
      (.resp 200 (.suggestions (querySuggestions c.store)), some c) ∧
    (querySuggestions c.store).Pairwise (fun a b => b.votes ≤ a.votes) ∧
    (querySuggestions c.store).Perm c.store.suggestions := by
  refine ⟨rfl, ?_, List.mergeSort_perm _ _⟩
  have h := @List.sorted_mergeSort Suggestion (fun a b => decide (b.votes ≤ a.votes))
    (fun a b e h1 h2 => by simp at h1 h2 ⊢; omega)
    (fun a b => by simp [Int.le_total])
    c.store.suggestions
  simpa [querySuggestions] using h

/-- Claim C8: GET /api/tutorials without a category_id query parameter is
answered 400 with a descriptive message; with a category_id present, the
response is 200 with exactly the tutorials whose category_id equals it. -/
theorem c8_tutorials_filter (c : Client) (req : Request)
    (hm : req.method = "GET") (hp : req.path = "/api/tutorials") :
    (req.getArg "category_id" = none →
      (dispatch (some c) req).1 =
        .resp 400 (.err "\x27category_id\x27 é um parâmetro obrigatório")) ∧
    (∀ cid, req.getArg "category_id" = some cid → cid ≠ "" →
      (dispatch (some c) req).1 =
        .resp 200 (.tutorials (c.store.tutorials.filter (fun t => t.category_id = cid)))) := by
  obtain ⟨m, p, args, hdrs, body⟩ := req
  simp only [Request.method] at hm
  simp only [Request.path] at hp
  subst hm; subst hp
  constructor
  · intro hnone
    show get_tutorials_by_category (some c) _ = _
    simp only [get_tutorials_by_category, hnone]
  · intro cid hsome hne
    show get_tutorials_by_category (some c) _ = _
    simp only [get_tutorials_by_category, hsome, hne, if_neg]
    simp [hne, queryTutorialsByCategory]

/-- Witness for C8: a store holding one tutorial in category 2, queried
with and without the parameter. -/
theorem c8_tutorials_filter_witness :
    (dispatch (some tutClient) tutListReq).1 = .resp 200 (.tutorials [sampleTutorial]) ∧
    (dispatch (some tutClient) ⟨"GET", "/api/tutorials", [], [], none⟩).1 =
      .resp 400 (.err "\x27category_id\x27 é um parâmetro obrigatório") := by
  constructor
  · have h := (c8_tutorials_filter tutClient tutListReq rfl rfl).2 "2" rfl (by decide)
    rw [h]
    rfl
  · exact (c8_tutorials_filter tutClient ⟨"GET", "/api/tutorials", [], [], none⟩ rfl rfl).1 rfl

/-- Claim C9: an authenticated POST /api/suggestions whose JSON body is
falsy (null or the empty object) or lacks the content key is answered 400,
with the error message naming content as the required field. -/
theorem c9_suggestion_missing_content (c : Client) (req : Request) (hd u : String)
    (hm : req.method = "POST") (hp : req.path = "/api/suggestions")
    (hh : req.getHeader "Authorization" = some hd)
    (hpre : List.isPrefixOf "Bearer ".data hd.data = true)
    (hu : c.authUsers (String.mk ((hd.data.splitOn ' ').getD 1 [])) = some u)
    (hbody : dataFalsy req.jsonBody = true ∨ jhas (req.jsonBody.getD []) "content" = false) :
    (dispatch (some c) req).1 = .resp 400 (.err "O campo \x27content\x27 é obrigatório") ∧
    ∃ pre post, "O campo \x27content\x27 é obrigatório" = pre ++ "content" ++ post := by
  obtain ⟨m, p, args, hdrs, body⟩ := req
  simp only [Request.method] at hm
  simp only [Request.path] at hp
  subst hm; subst hp
  refine ⟨?_, "O campo \x27", "\x27 é obrigatório", rfl⟩
  show (token_required _ _ _).1 = _
  rw [token_required_valid _ _ _ hd c u hh hpre rfl hu]
  simp only [Request.jsonBody] at hbody
  rcases hbody with hbody | hbody
  · simp [add_suggestion, hbody]
  · simp [add_suggestion, hbody]

/-- Witness for C9: valid token, body is the empty JSON object. -/
theorem c9_suggestion_missing_content_witness :
    (dispatch (some sampleClient) sugPostEmptyBody).1 =
      .resp 400 (.err "O campo \x27content\x27 é obrigatório") :=
  (c9_suggestion_missing_content sampleClient sugPostEmptyBody "Bearer tok" "user-1"
    rfl rfl rfl rfl rfl (Or.inl rfl)).1

/-- Claim C10: on an authenticated POST /api/tutorials, a body parsing to
JSON null makes the required-field membership test raise an unhandled
TypeError, surfaced as a 500 fault rather than the 400; the 400 branch is
reached exactly when the body is an object missing one of title,
description, category_id, content. -/
theorem c10_create_tutorial_null_body (c : Client) (req : Request) (hd u : String)
    (hm : req.method = "POST") (hp : req.path = "/api/tutorials")
    (hh : req.getHeader "Authorization" = some hd)
    (hpre : List.isPrefixOf "Bearer ".data hd.data = true)
    (hu : c.authUsers (String.mk ((hd.data.splitOn ' ').getD 1 [])) = some u) :
    (req.jsonBody = none →
      (dispatch (some c) req).1 = .fault "TypeError: argument of type NoneType is not iterable" ∧
      (dispatch (some c) req).1.status = 500 ∧
      (dispatch (some c) req).1.status ≠ 400) ∧
    (∀ d, req.jsonBody = some d →
      ¬ (["title", "description", "category_id", "content"].all (fun fl => jhas d fl) = true) →
      (dispatch (some c) req).1 =
        .resp 400 (.err "Campos \x27title\x27, \x27description\x27, \x27category_id\x27, e \x27content\x27 são obrigatórios.")) := by
  obtain ⟨m, p, args, hdrs, body⟩ := req
  simp only [Request.method] at hm
  simp only [Request.path] at hp
  subst hm; subst hp
  constructor
  · intro hnull
    simp only [Request.jsonBody] at hnull
    subst hnull
    have hr : (dispatch (some c) ⟨"POST", "/api/tutorials", args, hdrs, none⟩).1 =
        (token_required (some c) ⟨"POST", "/api/tutorials", args, hdrs, none⟩
          (fun c u => create_tutorial c u ⟨"POST", "/api/tutorials", args, hdrs, none⟩)).1 := rfl
    rw [hr, token_required_valid _ _ _ hd c u hh hpre rfl hu]
    refine ⟨rfl, rfl, ?_⟩
    intro hbad2
    simp [create_tutorial, Outcome.status] at hbad2
  · intro d hd2 hmiss
    simp only [Request.jsonBody] at hd2
    subst hd2
    show (token_required _ _ _).1 = _
    rw [token_required_valid _ _ _ hd c u hh hpre rfl hu]
    simp [create_tutorial, hmiss]

/-- Witness for C10: valid token, body parsing to JSON null, answered by a
500 fault. -/
theorem c10_create_tutorial_null_body_witness :
    (dispatch (some sampleClient) tutPostNullBody).1 =
      .fault "TypeError: argument of type NoneType is not iterable" ∧
    (dispatch (some sampleClient) tutPostNullBody).1.status = 500 :=
  ⟨((c10_create_tutorial_null_body sampleClient tutPostNullBody "Bearer tok" "user-1"
      rfl rfl rfl rfl rfl).1 rfl).1,
   ((c10_create_tutorial_null_body sampleClient tutPostNullBody "Bearer tok" "user-1"
      rfl rfl rfl rfl rfl).1 rfl).2.1⟩

end AmigoDigital
